import Mathlib

/-!
Shallow embedding of `internal/app/app.go` of drstein77/priceanalyzer,
together with the storage-layer contract of the specification for the parts
of the repository (packages `storage`, `bdkeeper`, `controllers`) whose
source files are not present.  Functions are embedded as pure Lean
functions; logging and process-level effects are explicit event traces; a
Go pointer is an `Option`; a Go interface value is a tagged value that
distinguishes the nil interface from an interface holding a (possibly nil)
concrete pointer, exactly as the Go language specification defines interface
values.
-/

/-- A price record.  The spec describes a stable key, a numeric price and a
timestamp; no claim performs arithmetic on the price, so it is kept as an
integer together with a natural-number timestamp. -/
structure PriceRecord where
  key : String
  price : Int
  ts : Nat
  deriving DecidableEq

/-- The storage-layer error taxonomy of spec section 7. -/
inductive StorageError where
  | NotFound
  | StorageUnavailable
  | PersistenceError
  deriving DecidableEq

/-- A Go `error` value relevant to app.go: either `http.ErrServerClosed` or
any other error carrying a message. -/
inductive GoError where
  | serverClosed
  | other (msg : String)
  deriving DecidableEq

/-- Go `errors.Is(err, http.ErrServerClosed)` for the errors modelled here. -/
def isServerClosed : GoError → Bool
  | .serverClosed => true
  | .other _ => false

/-- The message a Go error prints. -/
def errText : GoError → String
  | .serverClosed => "http: Server closed"
  | .other msg => msg

/-- Modelled from the spec: the package `bdkeeper` is not among the source
files.  Spec section 4.1 specifies the Backing Store Adapter as owning a
durable connection with `Fetch`, `Upsert` and `Close`.  The durable contents
are a key-indexed store; `failing` is the environment of spec section 8 in
which "the adapter is forced to fail" a durable write; `closed` records
whether `Close` has released the connection. -/
structure BDKeeper where
  dsn : String
  store : List (String × PriceRecord)
  failing : Bool
  closed : Bool
  deriving DecidableEq

/-- Modelled from the spec: `bdkeeper.NewBDKeeper(dsn, logger)` constructs
the adapter eagerly from the descriptor (spec section 4.1, `Open`); the
fresh adapter starts from an abstract durable store, taken empty here, with
a live connection. -/
def NewBDKeeper (dsn : String) : BDKeeper :=
  { dsn := dsn, store := [], failing := false, closed := false }

/-- Modelled from the spec: `Close()` "releases the connection; idempotent —
calling it on an already-closed or nil adapter is a no-op, never a crash"
(spec section 4.1).  The nil-pointer case is therefore total, changes
nothing and returns no error. -/
def keeperClose : Option BDKeeper → Option BDKeeper × Option StorageError
  | none => (none, none)
  | some k => (some { k with closed := true }, none)

/-- A Go value of the interface type `storage.Keeper` (spec section 9
specifies the adapter abstraction as an interface, "implement as an
interface/trait").  Per the Go specification an interface value is nil only
when it holds no concrete value at all; converting a concrete pointer to the
interface — even a nil pointer — yields a non-nil interface value carrying
that pointer. -/
inductive KeeperIface where
  | nilIface
  | ptr (p : Option BDKeeper)
  deriving DecidableEq

/-- Go's `keeper == nil` test on an interface value. -/
def KeeperIface.isNil : KeeperIface → Bool
  | .nilIface => true
  | .ptr _ => false

/-- The implicit conversion Go inserts at the call
`initializeStorage(server.ctx, keeper, nLogger)` (app.go line 53), taking
the `*bdkeeper.BDKeeper` returned by `initializeKeeper` to the interface
parameter `keeper storage.Keeper`. -/
def toKeeperIface (p : Option BDKeeper) : KeeperIface := .ptr p

/-- Lookup in an association list representing a Go map keyed by the record
key. -/
def lookupKey : List (String × PriceRecord) → String → Option PriceRecord
  | [], _ => none
  | (k2, v) :: rest, k => if k2 = k then some v else lookupKey rest k

/-- Insert or replace in an association list representing a Go map. -/
def insertKey : List (String × PriceRecord) → String → PriceRecord →
    List (String × PriceRecord)
  | [], k, v => [(k, v)]
  | (k2, v2) :: rest, k, v =>
      if k2 = k then (k, v) :: rest else (k2, v2) :: insertKey rest k v

/-- Delete from an association list representing a Go map. -/
def removeKey : List (String × PriceRecord) → String → List (String × PriceRecord)
  | [], _ => []
  | (k2, v) :: rest, k => if k2 = k then rest else (k2, v) :: removeKey rest k

/-- Modelled from the spec: `Fetch(key)` "retrieves a single record from
durable storage" (spec section 4.1).  Calling through a nil interface, or on
a nil adapter pointer, has no behaviour the spec defines and is `none`. -/
def KeeperIface.Fetch : KeeperIface → String → Option (Option PriceRecord)
  | .ptr (some kp), k => some (lookupKey kp.store k)
  | _, _ => none

/-- Modelled from the spec: `Upsert(record)` "durably persists a record,
replacing any existing record for the same key" and may fail with a
`PersistenceError` (spec sections 4.1 and 7); failure is the adapter's
`failing` flag.  Calling through a nil interface, or on a nil adapter
pointer, has no behaviour the spec defines and is `none`. -/
def KeeperIface.Upsert : KeeperIface → PriceRecord →
    Option (Except StorageError BDKeeper)
  | .ptr (some kp), r =>
      if kp.failing then some (.error .PersistenceError)
      else some (.ok { kp with store := insertKey kp.store r.key r })
  | _, _ => none

/-- Modelled from the spec: the package `storage` is not among the source
files.  Spec section 4.2: the In-Memory Cache holds a mapping from key to
`PriceRecord` and a reference to the Backing Store Adapter. -/
structure MemoryStorage where
  mem : List (String × PriceRecord)
  keeper : KeeperIface
  deriving DecidableEq

/-- Modelled from the spec: `storage.NewMemoryStorage(ctx, keeper, logger)`
constructs the cache wrapping the given adapter reference, starting from an
empty working set; the process-scoped context and the logger carry no state
the claims depend on. -/
def NewMemoryStorage (keeper : KeeperIface) : MemoryStorage :=
  { mem := [], keeper := keeper }

/-- Modelled from the spec, section 4.2: `Get(key)` checks the in-memory map
first; on a miss it delegates to the adapter's `Fetch`, populates the map on
success, and returns `NotFoundError` when the adapter also has no record.
`none` stands for a run whose adapter call has no defined behaviour. -/
def MemoryStorage.Get (s : MemoryStorage) (k : String) :
    Option (MemoryStorage × Except StorageError PriceRecord) :=
  match lookupKey s.mem k with
  | some r => some (s, .ok r)
  | none =>
      match s.keeper.Fetch k with
      | some (some r) => some ({ s with mem := insertKey s.mem k r }, .ok r)
      | some none => some (s, .error .NotFound)
      | none => none

/-- Modelled from the spec, section 4.2: `Put(record)` is write-through — it
updates the in-memory map and calls the adapter's `Upsert` before
acknowledging success; "if the durable write fails, the operation fails as a
whole and the in-memory map is rolled back to its prior value for that key".
`none` stands for a run whose adapter call has no defined behaviour. -/
def MemoryStorage.Put (s : MemoryStorage) (r : PriceRecord) :
    Option (MemoryStorage × Option StorageError) :=
  let prior := lookupKey s.mem r.key
  let mem1 := insertKey s.mem r.key r
  match s.keeper.Upsert r with
  | some (.ok kp2) => some ({ mem := mem1, keeper := .ptr (some kp2) }, none)
  | some (.error e) =>
      let rolled :=
        match prior with
        | some r0 => insertKey mem1 r.key r0
        | none => removeKey mem1 r.key
      some ({ mem := rolled, keeper := s.keeper }, some e)
  | none => none

/-- Modelled from the spec: the package `controllers` is not among the
source files.  The controller boundary "translates HTTP requests into cache
operations" (spec section 2); all the wiring shows is construction from the
context, the (possibly nil) cache pointer and the logger. -/
structure BaseController where
  storage : Option MemoryStorage
  deriving DecidableEq

/-- Modelled from the spec: `controllers.NewBaseController(ctx, storage,
logger)` — total construction holding the cache reference ("the caller is
responsible for treating a nil cache as storage unavailable ... rather than
crashing", spec section 4.2). -/
def NewBaseController (storage : Option MemoryStorage) : BaseController :=
  { storage := storage }

/-- One observable step of a run of `Serve` or `Shutdown` (app.go).  Logger
and `log` calls are events; `fatalExit` is `log.Fatalln`, which terminates
the process immediately, so deferred calls do not run after it. -/
inductive ServeEvent where
  | warnLog (msg : String)
  | debugLog (msg : String)
  | logMsg (msg : String)
  | startListener
  | awaitSignal
  | keeperCloseCall
  | listenerShutdownCall
  | fatalExit (msg : String)
  deriving DecidableEq

/-- app.go lines 81-88: `initializeKeeper(dataBaseDSN func() string,
logger)`.  If the descriptor is empty it logs the warning "DataBaseDSN is
empty" and returns nil; otherwise it returns
`bdkeeper.NewBDKeeper(dataBaseDSN, logger)`. -/
def initializeKeeper (dataBaseDSN : Unit → String) :
    Option BDKeeper × List ServeEvent :=
  if dataBaseDSN () = "" then
    (none, [.warnLog "DataBaseDSN is empty"])
  else
    (some (NewBDKeeper (dataBaseDSN ())), [])

/-- app.go lines 91-98: `initializeStorage(ctx, keeper storage.Keeper,
logger)`.  The parameter has the interface type `storage.Keeper`, and
`keeper == nil` is the Go comparison of that interface value against nil. -/
def initializeStorage (keeper : KeeperIface) :
    Option MemoryStorage × List ServeEvent :=
  if keeper.isNil then
    (none, [.warnLog "Keeper is nil, cannot initialize storage"])
  else
    (some (NewMemoryStorage keeper), [])

/-- app.go lines 101-105: `initializeBaseController` passes the cache
pointer straight to `controllers.NewBaseController`. -/
def initializeBaseController (storage : Option MemoryStorage) : BaseController :=
  NewBaseController storage

/-- An opaque `chi.Router` value. -/
structure Router where
  id : Nat
  deriving DecidableEq

/-- Go `time.Duration` is an integer count of nanoseconds. -/
def nanosecondsPerSecond : Nat := 1000000000

/-- The fields of Go's `http.Server` that the literal in app.go sets; the
TLS configuration and the TLS next-proto map are recorded as their
nil-or-not state. -/
structure HTTPServer where
  addr : String
  handler : Router
  readHeaderTimeout : Nat
  writeTimeout : Nat
  idleTimeout : Nat
  readTimeout : Nat
  maxHeaderBytes : Nat
  disableGeneralOptionsHandler : Bool
  tlsConfigIsNil : Bool
  tlsNextProtoIsNil : Bool
  deriving DecidableEq

/-- app.go lines 108-139: the `&http.Server{...}` literal `startServer`
builds, with `oneMegabyte = 1 << 20` and `readTimeout = 3 * time.Second`;
the goroutine around `ListenAndServe` is `listenerGoroutineAction` below. -/
def startServer (router : Router) (address : String) : HTTPServer :=
  let oneMegabyte : Nat := 1 <<< 20
  let readTimeout : Nat := 3 * nanosecondsPerSecond
  { addr := address
    handler := router
    readHeaderTimeout := readTimeout
    writeTimeout := readTimeout
    idleTimeout := readTimeout
    readTimeout := readTimeout
    maxHeaderBytes := oneMegabyte
    disableGeneralOptionsHandler := false
    tlsConfigIsNil := true
    tlsNextProtoIsNil := true }

/-- Whether a step terminates the whole process (`log.Fatalln` calls
`os.Exit(1)`) or lets it continue. -/
inductive ProcessAction where
  | fatalTerminate (msg : String)
  | proceed
  deriving DecidableEq

/-- app.go lines 131-136: the goroutine around `server.ListenAndServe()` —
`if err != nil && !errors.Is(err, http.ErrServerClosed) { log.Fatalln(err) }`. -/
def listenerGoroutineAction : Option GoError → ProcessAction
  | none => .proceed
  | some e => if isServerClosed e then .proceed else .fatalTerminate (errText e)

/-- app.go lines 34-78: the trace of one run of `Serve`, given whether
logger construction failed, the value of `option.DataBaseDSN()`, and the
result the listener goroutine obtains from `ListenAndServe` (`none` = still
serving when the interrupt signal arrives).  `defer keeper.Close()` (line
50) runs when `Serve` returns; `log.Fatalln` exits without running deferred
calls. -/
def serveRun (loggerErr : Bool) (dsn : String) (listenErr : Option GoError) :
    List ServeEvent :=
  if loggerErr then
    [.fatalExit "logger construction failed"]
  else
    let kres := initializeKeeper (fun _ => dsn)
    let keeperNilLog :=
      if kres.1.isNone then [ServeEvent.debugLog "Failed to initialize keeper"] else []
    let sres := initializeStorage (toKeeperIface kres.1)
    let storageNilLog :=
      if sres.1.isNone then [ServeEvent.debugLog "Failed to initialize storage"] else []
    let _basecontr := initializeBaseController sres.1
    let pre := kres.2 ++ keeperNilLog ++ sres.2 ++ storageNilLog ++
      [ServeEvent.startListener]
    match listenerGoroutineAction listenErr with
    | .fatalTerminate m => pre ++ [.fatalExit m]
    | .proceed => pre ++ [.awaitSignal, .keeperCloseCall]

/-- The keeper pointer a run of `Serve` holds (app.go line 46). -/
def serveKeeper (dsn : String) : Option BDKeeper :=
  (initializeKeeper (fun _ => dsn)).1

/-- The cache pointer a run of `Serve` holds (app.go line 53): the keeper
pointer crosses into the `storage.Keeper` interface parameter here. -/
def serveStorage (dsn : String) : Option MemoryStorage :=
  (initializeStorage (toKeeperIface (serveKeeper dsn))).1

/-- app.go lines 142-159: the trace of `Shutdown(timeout)`, given the stored
`srv` pointer and the result of `srv.Shutdown(ctxShutDown)` when that call
is reached. -/
def shutdownRun (srv : Option HTTPServer) (shutdownErr : Option GoError) :
    List ServeEvent :=
  let attempt := [ServeEvent.logMsg "attempting to stop the server"]
  match srv with
  | none => attempt ++ [ServeEvent.logMsg "server exited properly"]
  | some _ =>
      match shutdownErr with
      | some e =>
          if isServerClosed e then
            attempt ++ [ServeEvent.listenerShutdownCall,
              ServeEvent.logMsg "server stopped",
              ServeEvent.logMsg "server exited properly"]
          else
            attempt ++ [ServeEvent.listenerShutdownCall,
              ServeEvent.logMsg "server Shutdown Failed"]
      | none =>
          attempt ++ [ServeEvent.listenerShutdownCall,
            ServeEvent.logMsg "server stopped",
            ServeEvent.logMsg "server exited properly"]

/-- Concrete adapter with a live, non-failing connection, for witnesses. -/
def demoKeeperOK : BDKeeper :=
  { dsn := "postgres://db", store := [], failing := false, closed := false }

/-- Concrete fresh cache over `demoKeeperOK`, for witnesses. -/
def demoCache : MemoryStorage := NewMemoryStorage (KeeperIface.ptr (some demoKeeperOK))

/-- Concrete record written in the witnesses (spec section 8 scenario). -/
def demoRecord : PriceRecord := { key := "AAPL", price := 1905, ts := 1 }

/-- Concrete prior record for the rollback witness. -/
def demoRecord0 : PriceRecord := { key := "AAPL", price := 1800, ts := 0 }

/-- The cache state after the successful witness `Put`. -/
def demoCacheAfter : MemoryStorage :=
  { mem := [("AAPL", demoRecord)]
    keeper := KeeperIface.ptr (some { demoKeeperOK with store := [("AAPL", demoRecord)] }) }

/-- Concrete adapter holding `demoRecord0` whose durable writes fail. -/
def demoKeeperFail : BDKeeper :=
  { dsn := "postgres://db", store := [("AAPL", demoRecord0)], failing := true,
    closed := false }

/-- Concrete cache with prior record `demoRecord0` over the failing adapter. -/
def demoCachePrior : MemoryStorage :=
  { mem := [("AAPL", demoRecord0)], keeper := KeeperIface.ptr (some demoKeeperFail) }

theorem lookupKey_insertKey_self (m : List (String × PriceRecord)) (k : String)
    (v : PriceRecord) : lookupKey (insertKey m k v) k = some v := by
  induction m with
  | nil => simp [insertKey, lookupKey]
  | cons hd tl ih =>
      obtain ⟨k2, v2⟩ := hd
      by_cases h : k2 = k
      · simp [insertKey, lookupKey, h]
      · simp [insertKey, lookupKey, h, ih]

theorem getLast?_append_pair (l : List ServeEvent) (a b : ServeEvent) :
    (l ++ [a, b]).getLast? = some b := by
  induction l with
  | nil => rfl
  | cons hd tl ih =>
      rw [List.cons_append, List.getLast?_cons]
      simp

/-- C1: with an empty connection descriptor, `initializeKeeper` logs the
warning "DataBaseDSN is empty" and returns nil, so no adapter is
constructed, and the run of `Serve` still starts the HTTP listener and never
terminates the process. -/
theorem C1_empty_dsn_degraded_start :
    initializeKeeper (fun _ => "") = (none, [.warnLog "DataBaseDSN is empty"]) ∧
    serveKeeper "" = none ∧
    ServeEvent.startListener ∈ serveRun false "" none ∧
    ∀ m, ServeEvent.fatalExit m ∉ serveRun false "" none := by
  have htrace : serveRun false "" none =
      [.warnLog "DataBaseDSN is empty", .debugLog "Failed to initialize keeper",
       .startListener, .awaitSignal, .keeperCloseCall] := by decide
  refine ⟨by decide, by decide, ?_, ?_⟩
  · rw [htrace]; decide
  · intro m
    rw [htrace]
    simp

/-- C2: `Serve` defers `keeper.Close()` unconditionally — the close call is
the last step of every run that reaches the interrupt signal, in particular
of the degraded run whose keeper is nil — and `Close` on the nil adapter is
a total no-op returning no error. -/
theorem C2_nil_keeper_close_noop :
    serveKeeper "" = none ∧
    keeperClose none = (none, none) ∧
    (∀ dsn, (serveRun false dsn none).getLast? = some ServeEvent.keeperCloseCall) := by
  refine ⟨by decide, rfl, ?_⟩
  intro dsn
  show ((_ ++ [ServeEvent.awaitSignal, ServeEvent.keeperCloseCall]).getLast? = _)
  exact getLast?_append_pair _ _ _

/-- C3 at its failing inputs: in a run with a successfully opened adapter
stopped by the interrupt signal, the deferred `keeper.Close` runs although
no step of `Serve` ever stops the HTTP listener; and in a run whose listener
dies with a fatal error, the process exits with the adapter open and `Close`
is never called at all. -/
theorem C3_close_ordering_evaluation :
    serveKeeper "postgres://db" ≠ none ∧
    ServeEvent.keeperCloseCall ∈ serveRun false "postgres://db" none ∧
    ServeEvent.listenerShutdownCall ∉ serveRun false "postgres://db" none ∧
    ServeEvent.keeperCloseCall ∉
      serveRun false "postgres://db" (some (GoError.other "listen tcp: address in use")) := by
  decide

/-- C4 at its failing input: `initializeStorage` does return nil for the nil
interface value, but in `Serve` with an empty descriptor the nil keeper
pointer becomes a non-nil `storage.Keeper` interface value, so a cache is
constructed although no adapter exists. -/
theorem C4_cache_without_adapter_evaluation :
    (initializeStorage KeeperIface.nilIface).1 = none ∧
    serveKeeper "" = none ∧
    toKeeperIface (serveKeeper "") ≠ KeeperIface.nilIface ∧
    serveStorage "" = some (NewMemoryStorage (KeeperIface.ptr none)) := by
  decide

/-- C5: write-then-read consistency — whenever `Put(r)` succeeds, the
immediately following `Get(r.key)` returns exactly `r`. -/
theorem C5_put_then_get (s s2 : MemoryStorage) (r : PriceRecord)
    (h : s.Put r = some (s2, none)) :
    s2.Get r.key = some (s2, Except.ok r) := by
  unfold MemoryStorage.Put at h
  cases hu : s.keeper.Upsert r with
  | none => rw [hu] at h; exact absurd h (by simp)
  | some res =>
      cases res with
      | error e =>
          rw [hu] at h
          simp at h
      | ok kp2 =>
          rw [hu] at h
          simp at h
          subst h
          simp [MemoryStorage.Get, lookupKey_insertKey_self]

/-- Witness for C5 at the spec's section 8 scenario. -/
theorem C5_put_then_get_witness :
    demoCache.Put demoRecord = some (demoCacheAfter, none) ∧
    demoCacheAfter.Get "AAPL" = some (demoCacheAfter, Except.ok demoRecord) :=
  ⟨by decide, C5_put_then_get demoCache demoCacheAfter demoRecord (by decide)⟩

/-- C6: rollback — when a prior record `r0` exists for `r.key` and the
adapter's `Upsert` fails during `Put(r)`, the `Put` returns a
`PersistenceError` and the subsequent `Get(r.key)` still returns `r0`; in
particular it does not return `r` when the two records differ. -/
theorem C6_put_rollback (s s2 : MemoryStorage) (kp : BDKeeper) (r r0 : PriceRecord)
    (e2 : Option StorageError)
    (hk : s.keeper = KeeperIface.ptr (some kp)) (hf : kp.failing = true)
    (h0 : lookupKey s.mem r.key = some r0)
    (hput : s.Put r = some (s2, e2)) :
    e2 = some StorageError.PersistenceError ∧
    s2.Get r.key = some (s2, Except.ok r0) ∧
    (r0 ≠ r → s2.Get r.key ≠ some (s2, Except.ok r)) := by
  unfold MemoryStorage.Put at hput
  simp [hk, KeeperIface.Upsert, hf, h0] at hput
  obtain ⟨hs2, he2⟩ := hput
  subst hs2
  refine ⟨he2.symm, ?_, ?_⟩
  · simp [MemoryStorage.Get, lookupKey_insertKey_self]
  · intro hne habs
    simp [MemoryStorage.Get, lookupKey_insertKey_self] at habs
    exact hne habs

/-- Witness for C6 at the spec's section 8 scenario: the rollback restores
the cache state that held the prior record. -/
theorem C6_put_rollback_witness :
    some StorageError.PersistenceError = some StorageError.PersistenceError ∧
    demoCachePrior.Get "AAPL" = some (demoCachePrior, Except.ok demoRecord0) ∧
    (demoRecord0 ≠ demoRecord →
      demoCachePrior.Get "AAPL" ≠ some (demoCachePrior, Except.ok demoRecord)) :=
  C6_put_rollback demoCachePrior demoCachePrior demoKeeperFail demoRecord demoRecord0
    (some StorageError.PersistenceError) rfl rfl (by decide) (by decide)

/-- C7 at its failing input: with an empty descriptor the cache `Serve`
builds is not nil — it wraps the non-nil interface value holding the nil
adapter pointer — and that non-nil cache pointer is what reaches
`initializeBaseController`. -/
theorem C7_cache_not_unavailable_evaluation :
    serveStorage "" ≠ none ∧
    serveStorage "" = some (NewMemoryStorage (KeeperIface.ptr none)) ∧
    initializeBaseController (serveStorage "") =
      NewBaseController (some (NewMemoryStorage (KeeperIface.ptr none))) := by
  decide

/-- C8: only fatal startup failures terminate the process: the listener
goroutine calls `log.Fatalln` exactly on a `ListenAndServe` error other than
`http.ErrServerClosed`, a logger-construction error makes `Serve` exit
fatally before anything else, and neither `http.ErrServerClosed` nor a clean
signal-driven run terminates the process. -/
theorem C8_fatal_only_on_startup_failures :
    (∀ m, listenerGoroutineAction (some (GoError.other m)) =
      ProcessAction.fatalTerminate m) ∧
    listenerGoroutineAction (some GoError.serverClosed) = ProcessAction.proceed ∧
    listenerGoroutineAction none = ProcessAction.proceed ∧
    (∀ dsn listenErr, serveRun true dsn listenErr =
      [ServeEvent.fatalExit "logger construction failed"]) ∧
    serveRun false "postgres://db" (some (GoError.other "listen error")) =
      [ServeEvent.startListener, ServeEvent.fatalExit "listen error"] ∧
    serveRun false "postgres://db" (some GoError.serverClosed) =
      [ServeEvent.startListener, ServeEvent.awaitSignal, ServeEvent.keeperCloseCall] := by
  refine ⟨fun m => rfl, rfl, rfl, fun dsn listenErr => rfl, by decide, by decide⟩

/-- C9: `Shutdown` on a server whose HTTP server was never started logs the
attempt and the exit message and returns without ever invoking the
listener's shutdown, whatever result environment is supplied. -/
theorem C9_shutdown_nil_server_noop :
    ∀ e, shutdownRun none e =
        [ServeEvent.logMsg "attempting to stop the server",
         ServeEvent.logMsg "server exited properly"] ∧
      ServeEvent.listenerShutdownCall ∉ shutdownRun none e := by
  intro e
  refine ⟨rfl, ?_⟩
  show ServeEvent.listenerShutdownCall ∉
    [ServeEvent.logMsg "attempting to stop the server",
     ServeEvent.logMsg "server exited properly"]
  decide

/-- C10: `startServer` yields a server whose address and handler are the
given ones, whose four timeouts all equal 3 seconds, whose maximum header
size is 1 MiB (1048576 bytes), and whose TLS configuration and next-proto
map are nil. -/
theorem C10_startServer_config :
    ∀ (router : Router) (address : String),
      (startServer router address).addr = address ∧
      (startServer router address).handler = router ∧
      (startServer router address).readHeaderTimeout = 3 * nanosecondsPerSecond ∧
      (startServer router address).writeTimeout = 3 * nanosecondsPerSecond ∧
      (startServer router address).idleTimeout = 3 * nanosecondsPerSecond ∧
      (startServer router address).readTimeout = 3 * nanosecondsPerSecond ∧
      (startServer router address).maxHeaderBytes = 1048576 ∧
      (startServer router address).disableGeneralOptionsHandler = false ∧
      (startServer router address).tlsConfigIsNil = true ∧
      (startServer router address).tlsNextProtoIsNil = true := by
  intro router address
  refine ⟨rfl, rfl, rfl, rfl, rfl, rfl, rfl, rfl, rfl, rfl⟩
